import Mathlib

/-!
Verification development for the client-side chat/session state machine of the
"AI Code Architecture Agent" web application (the `useChat` React hook together
with the mention-resolution logic of `App.handleSendMessage`).

The JavaScript source is shallowly embedded: every stateful hook operation
becomes a pure function on an explicit `ChatState`, the backend (`apiFetch`)
becomes an `ApiResult` parameter (`apiFetch` throws an `Error` on a non-2xx
response, which is the `err` constructor), and every `Date.now()` reading
becomes an explicit `Nat` argument (epoch milliseconds).  ISO timestamp strings
(`new Date().toISOString()`) are represented by the underlying millisecond
reading, which determines them.  JavaScript strings are modelled by Lean
strings; the regex operations used by the source are implemented as explicit
character scanners with the same matching semantics.
-/

/-! ### JavaScript string primitives -/

/-- JS `\s` / `String.prototype.trim` whitespace test, restricted to the ASCII
whitespace actually occurring in chat input (JS also accepts exotic Unicode
whitespace, which is irrelevant here). -/
def isJsSpace (c : Char) : Bool :=
  c = ' ' || c = '\t' || c = '\n' || c = '\r'

/-- JS `\w`: ASCII letters, digits and underscore (no `u` flag on the source
regexes, so `\w` is ASCII-only). -/
def isWordChar (c : Char) : Bool :=
  (('a' ≤ c && c ≤ 'z') || ('A' ≤ c && c ≤ 'Z') || ('0' ≤ c && c ≤ '9') || c = '_')

/-- Character class `[\w.-]` of the mention-token regexes. -/
def isTagChar (c : Char) : Bool :=
  isWordChar c || c = '.' || c = '-'

/-- JS `String.prototype.trim` on a character list. -/
def jsTrimList (l : List Char) : List Char :=
  ((l.dropWhile isJsSpace).reverse.dropWhile isJsSpace).reverse

/-- JS `String.prototype.trim`. -/
def jsTrim (s : String) : String :=
  ⟨jsTrimList s.data⟩

/-- JS `String.prototype.toLowerCase`, ASCII part (repository names and
mention tokens in the source are ASCII). -/
def lowerStr (s : String) : String :=
  ⟨s.data.map Char.toLower⟩

/-- Does `needle` occur at the head of `hay`? (helper for `includes`). -/
def leadsWith : List Char → List Char → Bool
  | [], _ => true
  | _ :: _, [] => false
  | a :: as, b :: bs => a = b && leadsWith as bs

/-- JS `String.prototype.includes` on character lists. -/
def containsSubList : List Char → List Char → Bool
  | [], needle => needle.isEmpty
  | c :: cs, needle => leadsWith needle (c :: cs) || containsSubList cs needle

/-- JS `String.prototype.includes`. -/
def containsSub (hay needle : String) : Bool :=
  containsSubList hay.data needle.data

/-- JS `||` on an optional string: `null` and the empty string are falsy. -/
def jsOrStr (a b : Option String) : Option String :=
  match a with
  | some s => if s = "" then b else some s
  | none => b

/-! ### The mention-token regex `(^|\s)([#@])([\w.-]{2,})\b`

`matchAll` and `replace(..., '$1')` over this pattern are implemented as a
scanner over the character list.  At each candidate position the alternation
`(^|\s)` is tried in JS order (the zero-width `^` first, only at index 0), then
a sigil `#`/`@`, then the greedy `[\w.-]{2,}` with backtracking against the
trailing word boundary `\b`: the token is the longest prefix (of length at
least 2) of the maximal `[\w.-]` run whose final character forms a word/nonword
transition with the following character. -/

/-- Word boundary `\b` between a last consumed character and the following
character (end of input counts as a non-word character). -/
def wordBoundaryAfter (lastC : Char) (next : Option Char) : Bool :=
  isWordChar lastC != (match next with | some c => isWordChar c | none => false)

/-- Backtracking search for the token length: the largest `k ≤ run.length`
with `2 ≤ k` such that `\b` holds after the first `k` characters of `run`.
The argument `next` is the character following the whole run. -/
def bestTokenLenGo (run : List Char) (next : Option Char) : Nat → Option Nat
  | 0 => none
  | k + 1 =>
    if k + 1 < 2 then none
    else
      let lastC := run.getD k ' '
      let nextC := if k + 1 < run.length then some (run.getD (k + 1) ' ') else next
      if wordBoundaryAfter lastC nextC then some (k + 1) else bestTokenLenGo run next k

def bestTokenLen (run : List Char) (next : Option Char) : Option Nat :=
  bestTokenLenGo run next run.length

/-- Match `[#@][\w.-]{2,}\b` at the head of `l`; returns the number of
characters consumed and the captured token (group 3 of the full pattern). -/
def matchSigilToken : List Char → Option (Nat × List Char)
  | [] => none
  | c :: cs =>
    if c = '#' || c = '@' then
      let run := cs.takeWhile isTagChar
      let next := (cs.drop run.length).head?
      match bestTokenLen run next with
      | some k => some (1 + k, run.take k)
      | none => none
    else none

/-- Try the full pattern at the head of `l`. `atStart` tells whether this
position is string index 0 (where the `^` alternative applies).  Returns
(captured group 1, total match length, captured token). -/
def tryTagAt (atStart : Bool) (l : List Char) : Option (List Char × Nat × List Char) :=
  let wsBranch : Option (List Char × Nat × List Char) :=
    match l with
    | c :: cs =>
      if isJsSpace c then
        match matchSigilToken cs with
        | some (len, tok) => some ([c], 1 + len, tok)
        | none => none
      else none
    | [] => none
  if atStart then
    match matchSigilToken l with
    | some (len, tok) => some ([], len, tok)
    | none => wsBranch
  else wsBranch

/-- `input.matchAll(/(^|\s)([#@])([\w.-]{2,})\b/g)`: the list of captured
tokens (group 3), scanning left to right and resuming after each match. -/
def scanTagsGo : Nat → Bool → List Char → List (List Char)
  | 0, _, _ => []
  | _ + 1, _, [] => []
  | fuel + 1, atStart, c :: cs =>
    match tryTagAt atStart (c :: cs) with
    | some (_, len, tok) => tok :: scanTagsGo fuel false (List.drop (len - 1) cs)
    | none => scanTagsGo fuel false cs

def scanTags (s : String) : List String :=
  (scanTagsGo s.data.length true s.data).map fun l => ⟨l⟩

/-- `input.replace(/(^|\s)[#@][\w.-]{2,}\b/g, '$1')`: every match is replaced
by its captured leading boundary (empty at index 0, otherwise the single
whitespace character). -/
def replaceTagsGo : Nat → Bool → List Char → List Char
  | 0, _, l => l
  | _ + 1, _, [] => []
  | fuel + 1, atStart, c :: cs =>
    match tryTagAt atStart (c :: cs) with
    | some (g1, len, _) => g1 ++ replaceTagsGo fuel false (List.drop (len - 1) cs)
    | none => c :: replaceTagsGo fuel false cs

/-- `.replace(/\s+([,.;!?])/g, '$1')` — drop whitespace runs that directly
precede punctuation. -/
def isPunct (c : Char) : Bool :=
  c = ',' || c = '.' || c = ';' || c = '!' || c = '?'

def dropWsBeforePunct : Nat → List Char → List Char
  | 0, l => l
  | _ + 1, [] => []
  | fuel + 1, c :: cs =>
    if isJsSpace c then
      let run := (c :: cs).takeWhile isJsSpace
      match (c :: cs).drop run.length with
      | p :: rs =>
        if isPunct p then p :: dropWsBeforePunct fuel rs
        else c :: dropWsBeforePunct fuel cs
      | [] => c :: dropWsBeforePunct fuel cs
    else c :: dropWsBeforePunct fuel cs

/-- `.replace(/,\s*,+/g, ', ')` — collapse repeated commas. -/
def collapseCommas : Nat → List Char → List Char
  | 0, l => l
  | _ + 1, [] => []
  | fuel + 1, c :: cs =>
    if c = ',' then
      let ws := cs.takeWhile isJsSpace
      let rest := cs.drop ws.length
      let commas := rest.takeWhile (· = ',')
      if commas.length ≥ 1 then
        ',' :: ' ' :: collapseCommas fuel (rest.drop commas.length)
      else c :: collapseCommas fuel cs
    else c :: collapseCommas fuel cs

/-- `.replace(/^[\s,]+/, '')` and `.replace(/[\s,]+$/, '')`. -/
def isWsOrComma (c : Char) : Bool :=
  isJsSpace c || c = ','

/-- `.replace(/\s{2,}/g, ' ')` — collapse whitespace runs of length ≥ 2 into a
single space (a lone non-space whitespace character is left as is). -/
def collapseWs : Nat → List Char → List Char
  | 0, l => l
  | _ + 1, [] => []
  | fuel + 1, c :: cs =>
    if isJsSpace c then
      let run := (c :: cs).takeWhile isJsSpace
      if run.length ≥ 2 then ' ' :: collapseWs fuel ((c :: cs).drop run.length)
      else c :: collapseWs fuel cs
    else c :: collapseWs fuel cs

/-- The tag-stripping pipeline of `App.handleSendMessage` (part of the Mention
Resolver): remove every recognized tag token keeping its leading boundary, fix
space-before-punctuation, collapse repeated commas, trim leading/trailing
whitespace-or-commas, collapse repeated whitespace, then `trim()`. -/
def cleanTagContent (input : String) : String :=
  let l0 := input.data
  let l1 := replaceTagsGo l0.length true l0
  let l2 := dropWsBeforePunct l1.length l1
  let l3 := collapseCommas l2.length l2
  let l4 := l3.dropWhile isWsOrComma
  let l5 := (l4.reverse.dropWhile isWsOrComma).reverse
  let l6 := collapseWs l5.length l5
  jsTrim ⟨l6⟩

/-! ### Data model

Structures mirror the JSON objects the hook manipulates.  Optional fields model
properties that may be absent (`undefined`); JS truthiness checks on strings
and numbers are modelled explicitly where the source relies on them. -/

/-- Backend `repository_info` payload (legacy format). -/
structure RepositoryInfo where
  name : Option String := none
  description : Option String := none
  language : Option String := none
  file_count : Option Nat := none
deriving DecidableEq, Repr

/-- Backend `analysis` payload (legacy format); `suggestions` may be an array
or a plain string in the JSON. -/
structure AnalysisInfo where
  overview : Option String := none
  suggestions : Option (List String ⊕ String) := none
deriving DecidableEq, Repr

/-- JSON response of `POST /ask-question` and `POST /analyze-repo`. -/
structure AnalysisResponse where
  success : Option Bool := none
  message : Option String := none
  analysis_summary : Option String := none
  mermaid_diagram : Option String := none
  repository_info : Option RepositoryInfo := none
  analysis : Option AnalysisInfo := none
  file_structure : Option (List String) := none
  technologies : Option (List String) := none
  repo_context : Option String := none
  repo_contexts : Option (List String) := none
deriving DecidableEq, Repr

/-- One entry of the `suggestions` array of `POST /suggest-feature`. -/
structure FeatureSuggestion where
  title : Option String := none
  description : Option String := none
  files : Option (List String) := none
  implementation : Option String := none
deriving DecidableEq, Repr

/-- JSON response of `POST /suggest-feature`; `suggestions` may be an array or
a plain string. -/
structure FeatureResponse where
  suggestions : Option (List FeatureSuggestion ⊕ String) := none
  architectural_notes : Option String := none
deriving DecidableEq, Repr

/-- `metadata` object attached to conversation messages. -/
structure MessageMetadata where
  repo_name : Option String := none
  system : Option Bool := none
deriving DecidableEq, Repr

/-- One message of the `POST /api/conversations/.../switch` response. -/
structure BackendMessage where
  role : String
  content : String
  timestamp : Nat
  metadata : Option MessageMetadata := none
deriving DecidableEq, Repr

/-- JSON response of `POST /api/conversations/.../switch`. -/
structure SwitchResponse where
  success : Bool
  messages : List BackendMessage
  error : Option String := none
deriving DecidableEq, Repr

/-- A chat message of the Message Log.  `id` is a string
(`Date.now().toString()` for ordinary appends); `timestamp` is the creation
time in epoch milliseconds (standing for its `toISOString()` rendering). -/
structure Message where
  id : String
  type : String
  content : String
  timestamp : Nat
  isThinking : Bool := false
  isError : Bool := false
  startTime : Option Nat := none
  thinkingTime : Option String := none
  repoContext : Option String := none
  repoContexts : Option (List String) := none
  analysisData : Option AnalysisResponse := none
  suggestionData : Option FeatureResponse := none
  metadata : Option MessageMetadata := none
deriving DecidableEq, Repr

/-- An entry of the Repository Registry. -/
structure Repository where
  id : String
  name : String
  /-- `'github'` or `'upload'`; the legacy-format registration path creates
  entries without a `type` property, hence the `Option`. -/
  type : Option String := none
  analyzedAt : Nat
  url : Option String := none
  description : Option String := none
  language : Option String := none
  file_count : Option Nat := none
deriving DecidableEq, Repr

/-- The persisted localStorage keys used by the hook (each `Option` field is
one key; `none` means the key is absent). -/
structure Storage where
  messages : Option (List Message) := none
  repositories : Option (List Repository) := none
  chatSessions : Option (List (String × Nat × Nat × String)) := none
  currentSessionId : Option String := none
  activeRepoName : Option (Option String) := none
  lastSavedTimestamp : Option Nat := none
deriving DecidableEq, Repr

/-- The in-memory state of the `useChat` hook. -/
structure ChatState where
  messages : List Message
  input : String
  isLoading : Bool
  isSaving : Bool
  lastSaved : Option Nat
  repositories : List Repository
  activeRepoName : Option String
  sessionId : String
  storage : Storage
deriving DecidableEq, Repr

/-- Outcome of an `apiFetch` call: the parsed JSON body on a 2xx response, or
the thrown `Error`'s message otherwise. -/
inductive ApiResult (α : Type) where
  | ok (data : α)
  | err (message : String)
deriving DecidableEq, Repr

/-- `DEFAULT_WELCOME_MESSAGE` (module-level constant; its timestamp is the
module-load instant, taken as 0 here). -/
def DEFAULT_WELCOME_MESSAGE : Message :=
  { id := "1"
    type := "assistant"
    content := "Welcome! I\x27m your AI Code Architecture Assistant. I can analyze codebases, suggest feature placements, and help you understand your repository structure. \n\nYou can:\nâ€¢ Upload a ZIP file of your codebase\nâ€¢ Provide a GitHub repository URL\nâ€¢ Ask questions about code architecture\nâ€¢ Get suggestions for implementing new features"
    timestamp := 0 }

/-! ### Presentation formatters (pure string transforms) -/

/-- JS truthiness of an optional string (absent and empty are falsy). -/
def truthyStr : Option String → Option String
  | some s => if s = "" then none else some s
  | none => none

/-- JS truthiness of an optional number (absent and 0 are falsy). -/
def truthyNat : Option Nat → Option Nat
  | some n => if n = 0 then none else some n
  | none => none

/-- `formatAnalysisResults(data)` — renders a backend analysis payload as
Markdown.  The argument is `none` when the JS value is null/undefined. -/
def formatAnalysisResults : Option AnalysisResponse → String
  | none => "Analysis completed, but no data was returned."
  | some data =>
    if data.success = some false then
      "# âŒ Analysis Failed\n\n" ++ ((truthyStr data.message).getD "Unknown error occurred")
    else
      let result := "# ğŸ“Š Repository Analysis Complete\n\n"
      let result := match truthyStr data.message with
        | some m => result ++ "âœ… **Status:** " ++ m ++ "\n\n"
        | none => result
      let result := match truthyStr data.analysis_summary with
        | some s => result ++ s ++ "\n\n"
        | none => result
      let result := match truthyStr data.mermaid_diagram with
        | some d =>
          result ++ "## ğŸ“Š Architecture Diagram\n\n" ++ "```mermaid\n" ++ d ++ "\n```\n\n"
        | none => result
      let result := match data.repository_info with
        | some info =>
          let r := result ++ "## Repository Information\n" ++
            "**Name:** " ++ ((truthyStr info.name).getD "Unknown") ++ "\n"
          let r := match truthyStr info.description with
            | some d => r ++ "**Description:** " ++ d ++ "\n"
            | none => r
          let r := match truthyStr info.language with
            | some lg => r ++ "**Primary Language:** " ++ lg ++ "\n"
            | none => r
          let r := match truthyNat info.file_count with
            | some n => r ++ "**Files Analyzed:** " ++ Nat.repr n ++ "\n"
            | none => r
          r ++ "\n"
        | none => result
      let result := match data.analysis with
        | some a =>
          match truthyStr a.overview with
          | some ov => result ++ "## ğŸ” Architecture Overview\n" ++ ov ++ "\n\n"
          | none => result
        | none => result
      let result := match data.analysis with
        | some a =>
          match a.suggestions with
          | some (.inl l) =>
            result ++ "## ğŸ’¡ Suggestions\n" ++
              String.join (l.enum.map fun p =>
                Nat.repr (p.1 + 1) ++ ". " ++ p.2 ++ "\n") ++ "\n"
          | some (.inr s) =>
            if s = "" then result
            else result ++ "## ğŸ’¡ Suggestions\n" ++ s ++ "\n" ++ "\n"
          | none => result
        | none => result
      let result := match data.file_structure with
        | some files =>
          let importantFiles := files.take 10
          let r := result ++ "## ğŸ“ Key Files Found\n" ++
            String.join (importantFiles.map fun f => "â€¢ " ++ f ++ "\n")
          let r :=
            if files.length > 10 then
              r ++ "â€¢ ... and " ++ Nat.repr (files.length - 10) ++ " more files\n"
            else r
          r ++ "\n"
        | none => result
      let result := match data.technologies with
        | some techs =>
          result ++ "## ğŸ› ï¸ Technologies Detected\n" ++
            String.join (techs.map fun t => "â€¢ " ++ t ++ "\n") ++ "\n"
        | none => result
      result

/-- `formatFeatureSuggestions(data)`. -/
def formatFeatureSuggestions : Option FeatureResponse → String
  | none => "Feature analysis completed, but no suggestions were returned."
  | some data =>
    let result := "# ğŸš€ Feature Implementation Suggestions\n\n"
    let result := match data.suggestions with
      | some (.inl l) =>
        result ++ String.join (l.enum.map fun p =>
          let index := p.1
          let suggestion := p.2
          let r := "## " ++ Nat.repr (index + 1) ++ ". " ++
            ((truthyStr suggestion.title).getD ("Suggestion " ++ Nat.repr (index + 1))) ++ "\n"
          let r := match truthyStr suggestion.description with
            | some d => r ++ d ++ "\n\n"
            | none => r
          let r := match suggestion.files with
            | some files =>
              r ++ "**Files to modify:**\n" ++
                String.join (files.map fun f => "â€¢ " ++ f ++ "\n") ++ "\n"
            | none => r
          let r := match truthyStr suggestion.implementation with
            | some impl => r ++ "**Implementation notes:**\n" ++ impl ++ "\n\n"
            | none => r
          r)
      | some (.inr s) => if s = "" then result else result ++ s
      | none => result
    let result := match truthyStr data.architectural_notes with
      | some notes => result ++ "## ğŸ—ï¸ Architectural Considerations\n" ++ notes ++ "\n\n"
      | none => result
    result

/-! ### Hook operations

Each operation is the source function as a pure state transformer.  `await`
points are collapsed: the result is the state after the operation has fully
settled (backend response or error applied, `finally` run, timers fired).
The reactive `useEffect` persistence of `messages`/`repositories` (which
mirrors those fields into storage after every change) is a separate follow-up
effect and is not folded into the operation functions; only the explicit
`storage.save` / `storage.remove` calls written inside an operation are
modelled. -/

/-- `addMessage(message)` — appends, assigning a fresh `Date.now()` id and
timestamp. -/
def addMessage (message : Message) (now : Nat) (s : ChatState) : ChatState :=
  { s with messages :=
      s.messages ++ [{ message with id := Nat.repr now, timestamp := now }] }

/-- The `setMessages(prev => [...prev.filter(m => !m.isThinking), final])`
update used by every response/error reconciliation (the Message Log's
`replaceThinking`). -/
def replaceThinking (log : List Message) (finalMessage : Message) : List Message :=
  log.filter (fun m => !m.isThinking) ++ [finalMessage]

/-- Tag detection inside `sendMessage` (used only when no explicit
`repoOverrides` array is passed): each `matchAll` token is re-extracted with
`/[#@]([\w.-]{2,})/` (recovering exactly the captured token) and matched
case-insensitively as a substring against registry names, first registry entry
wins, deduplicating while preserving first-seen order. -/
def detectTagMatches (content : String) (repositories : List Repository) : List String :=
  (scanTags content).foldl
    (fun matchedRepos candidate =>
      match repositories.find? (fun r => containsSub (lowerStr r.name) (lowerStr candidate)) with
      | some found =>
        if matchedRepos.contains found.name then matchedRepos
        else matchedRepos ++ [found.name]
      | none => matchedRepos) []

/-- `((endTime - startTime) / 1000).toFixed(1)` — elapsed seconds with one
decimal digit (exact decimal rounding stands in for the float computation;
no claim depends on this display string). -/
def thinkingSecs (startTime endTime : Nat) : String :=
  let tenths := (endTime - startTime + 50) / 100
  Nat.repr (tenths / 10) ++ "." ++ Nat.repr (tenths % 10)

/-- `sendMessage(content, repoOverride, repoOverrides, originalContent)`.

`backend` is the outcome of the single `apiFetch('/ask-question')` call; it is
irrelevant when no repository scope resolves (that path issues no backend
call).  `t0` is `startTime`; `tUser`/`tThink`/`tFinal` are the `Date.now()`
readings at the three message creations and `tEnd` the reading taken when the
response arrives. -/
def sendMessage (content : String) (repoOverride : Option String)
    (repoOverrides : Option (List String)) (originalContent : Option String)
    (backend : ApiResult AnalysisResponse)
    (t0 tUser tThink tEnd tFinal : Nat) (s : ChatState) : ChatState :=
  if jsTrim content = "" ∨ s.isLoading = true then s
  else
    let userMessage : Message :=
      { id := "", type := "user", content := jsTrim (originalContent.getD content),
        timestamp := 0 }
    let s1 := addMessage userMessage tUser s
    let s1 := { s1 with input := "", isLoading := true }
    let thinkingMessage : Message :=
      { id := "", type := "assistant", content := "Let me analyze your request...",
        timestamp := 0, isThinking := true, startTime := some t0 }
    let s2 := addMessage thinkingMessage tThink s1
    let matchedRepos := (repoOverrides.getD [])
    let matchedRepos :=
      if matchedRepos = [] then detectTagMatches content s2.repositories
      else matchedRepos
    let repoNameForQuestion :=
      jsOrStr repoOverride (jsOrStr s2.activeRepoName
        ((s2.repositories.getLast?).map Repository.name))
    -- `if (repoNameForQuestion)` is a JS truthiness test: both null and the
    -- empty string take the no-backend guidance branch below
    match truthyStr repoNameForQuestion with
    | some _ =>
      -- the form data built from `matchedRepos` only feeds the backend call
      match backend with
      | .ok data =>
        let finalMsg : Message :=
          { id := Nat.repr tFinal, type := "assistant",
            content := formatAnalysisResults (some data), timestamp := tFinal,
            thinkingTime := some (thinkingSecs t0 tEnd ++ "s"),
            repoContext := truthyStr data.repo_context,
            repoContexts := data.repo_contexts }
        { s2 with messages := replaceThinking s2.messages finalMsg, isLoading := false }
      | .err _ =>
        let errMsg : Message :=
          { id := Nat.repr tFinal, type := "assistant",
            content := "Sorry, I encountered an error while processing your request. Please try again.",
            timestamp := tFinal, isError := true }
        { s2 with messages := replaceThinking s2.messages errMsg, isLoading := false }
    | none =>
      let _ := matchedRepos
      let guidanceMsg : Message :=
        { id := Nat.repr tFinal, type := "assistant",
          content := "I understand you\x27re asking about: \"" ++ content ++
            "\"\n\nTo provide the best analysis, please:\n1. Upload your codebase as a ZIP file, or\n2. Provide a GitHub repository URL\n\nOnce I have access to your code, I can give you detailed insights about architecture, suggest improvements, and help with feature placement.",
          timestamp := tFinal }
      { s2 with messages := replaceThinking s2.messages guidanceMsg, isLoading := false }

/-- Drop a literal from the head of a list, if it leads it. -/
def stripLit : List Char → List Char → Option (List Char)
  | [], l => some l
  | _ :: _, [] => none
  | a :: as, b :: bs => if a = b then stripLit as bs else none

def githubHostHttps : List Char := "https://github.com/".data

def githubHostHttp : List Char := "http://github.com/".data

/-- `.replace(/https?:\/\/github\.com\//, '')` — removes the first (leftmost)
occurrence; at a given position the greedy `s?` tries `https` before `http`. -/
def removeGithubHost : List Char → List Char
  | [] => []
  | c :: cs =>
    match stripLit githubHostHttps (c :: cs) with
    | some rest => rest
    | none =>
      match stripLit githubHostHttp (c :: cs) with
      | some rest => rest
      | none => c :: removeGithubHost cs

/-- JS `String.prototype.split('/')` on character lists: `""` splits to
`[""]`, `"/"` to `["", ""]`. -/
def splitSlash : List Char → List (List Char)
  | [] => [[]]
  | c :: cs =>
    if c = '/' then [] :: splitSlash cs
    else
      match splitSlash cs with
      | [] => [[c]]
      | h :: t => (c :: h) :: t

/-- `repoUrl.split('/').pop()` (never `undefined`: `split` returns at least
one element). -/
def lastSlashSeg (repoUrl : String) : String :=
  ⟨((splitSlash repoUrl.data).getLast?).getD []⟩

/-- The `owner-repo` display-name derivation of `analyzeRepository`:
`repoUrl.replace(/https?:\/\/github\.com\//, '').split('/')`, joining the
first two segments with `-` when there are at least two, otherwise
`repoUrl.split('/').pop() || 'unknown-repo'`. -/
def extractRepoName (repoUrl : String) : String :=
  let urlParts := (splitSlash (removeGithubHost repoUrl.data)).map fun l => (⟨l⟩ : String)
  if urlParts.length ≥ 2 then urlParts.getD 0 "" ++ "-" ++ urlParts.getD 1 ""
  else (jsOrStr (some (lastSlashSeg repoUrl)) (some "unknown-repo")).getD "unknown-repo"

/-- Category-specific error text built in `analyzeRepository`'s catch block
from the thrown error's message. -/
def analyzeRepoErrorText (repoUrl errMessage : String) : String :=
  let base := "Sorry, I couldn\x27t analyze the repository \"" ++ repoUrl ++ "\"."
  if containsSub errMessage "422" then
    base ++ "\n\n**HTTP 422 Error:** This usually means the repository URL format is incorrect or the repository is not accessible. Please check:\n        \nâ€¢ Make sure the URL is a valid GitHub repository URL\nâ€¢ Ensure the repository is public or you have access to it\nâ€¢ Try the format: https://github.com/username/repository-name\n\n**Example:** https://github.com/facebook/react"
  else if containsSub errMessage "404" then
    base ++ "\n\n**Repository Not Found:** The repository at this URL doesn\x27t exist or is private."
  else if containsSub errMessage "500" then
    base ++ "\n\n**Server Error:** There was an internal server error while processing your request. Please try again later."
  else
    base ++ "\n\nError details: " ++ errMessage

/-- `analyzeRepository(repoUrl)`.  `t0` is `startTime`; `tUser`/`tThink` the
`Date.now()` readings of the two appends, `tEnd`/`tFinal` those taken when the
response arrives, `tRepo` the one inside the registry update. -/
def analyzeRepository (repoUrl : String) (backend : ApiResult AnalysisResponse)
    (t0 tUser tThink tEnd tFinal tRepo : Nat) (s : ChatState) : ChatState :=
  let s1 := { s with isLoading := true }
  let s1 := addMessage
    { id := "", type := "user", content := "Analyze repository: " ++ repoUrl,
      timestamp := 0 } tUser s1
  let s2 := addMessage
    { id := "", type := "assistant", content := "Starting repository analysis...",
      timestamp := 0, isThinking := true, startTime := some t0 } tThink s1
  match backend with
  | .ok data =>
    let resultMsg : Message :=
      { id := Nat.repr tFinal, type := "assistant",
        content := formatAnalysisResults (some data), timestamp := tFinal,
        thinkingTime := some (thinkingSecs t0 tEnd ++ "s"),
        analysisData := some data }
    let s3 := { s2 with messages := replaceThinking s2.messages resultMsg }
    let s4 :=
      if data.success = some true then
        if (s3.repositories.find? (fun repo => repo.url = some repoUrl)).isSome then s3
        else
          let repoName := extractRepoName repoUrl
          { s3 with
            repositories := s3.repositories ++
              [{ id := Nat.repr tRepo, url := some repoUrl, name := repoName,
                 analyzedAt := tRepo, type := some "github",
                 description := some ((truthyStr data.message).getD
                   "Repository analyzed successfully") }],
            activeRepoName := some repoName }
      else
        match data.repository_info with
        | some info =>
          -- legacy format support
          if (s3.repositories.find? (fun repo => repo.url = some repoUrl)).isSome then s3
          else
            { s3 with
              repositories := s3.repositories ++
                -- `name: info.name || pop()` is overridden again by the
                -- `...data.repository_info` spread whenever `name` is present
                [{ id := Nat.repr tRepo, url := some repoUrl,
                   name := info.name.getD (lastSlashSeg repoUrl),
                   analyzedAt := tRepo,
                   description := info.description, language := info.language,
                   file_count := info.file_count }],
              activeRepoName :=
                some ((jsOrStr info.name (some (lastSlashSeg repoUrl))).getD "") }
        | none => s3
    { s4 with isLoading := false }
  | .err e =>
    let errMsg : Message :=
      { id := Nat.repr tFinal, type := "assistant",
        content := analyzeRepoErrorText repoUrl e, timestamp := tFinal,
        isError := true }
    let s3 := { s2 with messages := replaceThinking s2.messages errMsg }
    { s3 with isLoading := false }

/-- `file.name.replace(/\.[^/.]+$/, "")` — drop a final `.ext` suffix where
`ext` is one or more characters none of which is `.` or `/`. -/
def stripFileExt (name : String) : String :=
  let rev := name.data.reverse
  let extRev := rev.takeWhile fun c => !(c = '.' || c = '/')
  match rev.drop extRev.length with
  | '.' :: restRev => if extRev.length ≥ 1 then ⟨restRev.reverse⟩ else name
  | _ => name

/-- `analyzeFile(file)`; `fileName` is `file.name`.  The extension-stripped
`repoName` is sent as the `repo_name` form field of the backend call only —
the registry entry and the active pointer use `file.name` itself. -/
def analyzeFile (fileName : String) (backend : ApiResult AnalysisResponse)
    (tUser tThink tFinal tRepo : Nat) (s : ChatState) : ChatState :=
  let s1 := { s with isLoading := true }
  let s1 := addMessage
    { id := "", type := "user", content := "Analyze uploaded file: " ++ fileName,
      timestamp := 0 } tUser s1
  let s2 := addMessage
    { id := "", type := "assistant", content := "Processing uploaded file...",
      timestamp := 0, isThinking := true } tThink s1
  -- `repoName = file.name.replace(/\.[^/.]+$/, "") || 'uploaded-repo'`,
  -- appended to the outgoing form data
  let _repoNameField := (jsOrStr (some (stripFileExt fileName)) (some "uploaded-repo"))
  match backend with
  | .ok data =>
    let resultMsg : Message :=
      { id := Nat.repr tFinal, type := "assistant",
        content := formatAnalysisResults (some data), timestamp := tFinal,
        analysisData := some data }
    let s3 := { s2 with messages := replaceThinking s2.messages resultMsg }
    let s4 : ChatState :=
      match data.repository_info with
      | some info =>
        if (s3.repositories.find? (fun repo => repo.name = fileName)).isSome then s3
        else
          { s3 with
            repositories := s3.repositories ++
              -- `name: file.name` is overridden by the spread whenever the
              -- legacy payload carries a `name` property
              [{ id := Nat.repr tRepo, name := info.name.getD fileName,
                 type := some "upload", analyzedAt := tRepo,
                 description := info.description, language := info.language,
                 file_count := info.file_count }],
            activeRepoName := some fileName }
      | none => s3
    { s4 with isLoading := false }
  | .err e =>
    let errMsg : Message :=
      { id := Nat.repr tFinal, type := "assistant",
        content := "Sorry, I couldn\x27t analyze the uploaded file \"" ++ fileName ++
          "\". Please make sure it\x27s a valid ZIP file containing source code.\n\nError: " ++ e,
        timestamp := tFinal, isError := true }
    let s3 := { s2 with messages := replaceThinking s2.messages errMsg }
    { s3 with isLoading := false }

/-- `suggestFeature(featureDescription, repositoryContext)` (the second
parameter is declared but never read by the source). -/
def suggestFeature (featureDescription : String) (repositoryContext : Option String)
    (backend : ApiResult FeatureResponse)
    (tUser tThink tFinal : Nat) (s : ChatState) : ChatState :=
  let _ := repositoryContext
  let s1 := { s with isLoading := true }
  let s1 := addMessage
    { id := "", type := "user",
      content := "Suggest implementation for: " ++ featureDescription,
      timestamp := 0 } tUser s1
  let s2 := addMessage
    { id := "", type := "assistant",
      content := "Analyzing codebase and generating feature suggestions...",
      timestamp := 0, isThinking := true } tThink s1
  -- `repoName = activeRepoName || (last registered name) || 'unknown-repo'`,
  -- sent as the `repo_name` form field
  let _repoNameField :=
    (jsOrStr s2.activeRepoName ((s2.repositories.getLast?).map Repository.name)).getD
      "unknown-repo"
  match backend with
  | .ok data =>
    let resultMsg : Message :=
      { id := Nat.repr tFinal, type := "assistant",
        content := formatFeatureSuggestions (some data), timestamp := tFinal,
        suggestionData := some data }
    { s2 with messages := replaceThinking s2.messages resultMsg, isLoading := false }
  | .err e =>
    let errMsg : Message :=
      { id := Nat.repr tFinal, type := "assistant",
        content := "Sorry, I couldn\x27t generate feature suggestions. Please make sure you have analyzed a repository first.\n\nError: " ++ e,
        timestamp := tFinal, isError := true }
    { s2 with messages := replaceThinking s2.messages errMsg, isLoading := false }

/-- `switchToRepository(repoName)`.  `tWelcome`/`tNotice`/`tError` are the
`Date.now()` readings of the synthesized welcome message, the system notice
and the error append. -/
def switchToRepository (repoName : String) (backend : ApiResult SwitchResponse)
    (tWelcome tNotice tError : Nat) (s : ChatState) : ChatState :=
  let s1 := { s with isLoading := true }
  let appendError (e : String) (st : ChatState) : ChatState :=
    { st with messages := st.messages ++
        [{ id := repoName ++ "_error_" ++ Nat.repr tError, type := "assistant",
           content := "Failed to switch to " ++ repoName ++ ": " ++ e,
           timestamp := tError, isError := true }] }
  match backend with
  | .ok data =>
    if data.success then
      let transformedMessages := data.messages.enum.map fun p =>
        ({ id := repoName ++ "_" ++ Nat.repr p.1, type := p.2.role,
           content := p.2.content, timestamp := p.2.timestamp,
           metadata := some (p.2.metadata.getD {}) } : Message)
      let repoWelcome : Message :=
        { id := repoName ++ "_welcome", type := "assistant",
          content := "Welcome to the " ++ repoName ++
            " repository chat! I have analyzed this repository and can help you understand its structure, suggest improvements, or help you implement new features. What would you like to know?",
          timestamp := tWelcome,
          metadata := some ({ repo_name := some repoName } : MessageMetadata) }
      let transformedMessages :=
        if transformedMessages.length = 0 then [repoWelcome]
        else transformedMessages
      let s2 := { s1 with messages := transformedMessages, input := "",
                          activeRepoName := some repoName }
      let s2 := { s2 with storage.messages := some transformedMessages }
      let systemNotice : Message :=
        { id := repoName ++ "_" ++ Nat.repr tNotice, type := "assistant",
          content := "Switched to " ++ repoName ++ " conversation",
          timestamp := tNotice,
          metadata := some ({ repo_name := some repoName, system := some true } : MessageMetadata) }
      let s2 := { s2 with messages := s2.messages ++ [systemNotice] }
      { s2 with isLoading := false }
    else
      -- `throw new Error(data.error || 'Failed to switch conversation')`
      let s2 := appendError ((jsOrStr data.error
        (some "Failed to switch conversation")).getD "") s1
      { s2 with isLoading := false }
  | .err e =>
    let s2 := appendError e s1
    { s2 with isLoading := false }

/-- `clearChatHistory()` — resets the log and the registry and removes the
persisted keys.  Note: it never calls `setActiveRepoName`, so the in-memory
active-repository pointer is left as it was (and the reactive persistence
effect will even re-save it afterwards). -/
def clearChatHistory (s : ChatState) : ChatState :=
  { s with
    messages := [DEFAULT_WELCOME_MESSAGE],
    repositories := [],
    storage := { s.storage with
      messages := none, repositories := none, chatSessions := none,
      currentSessionId := none, activeRepoName := none } }

/-- `newChat()` — resets the log to the welcome message, clears the input,
generates `session_${Date.now()}` and persists it together with the reset
log.  The in-memory `sessionId` state is created once per mount and is not
updated here. -/
def newChat (now : Nat) (s : ChatState) : ChatState :=
  { s with
    messages := [DEFAULT_WELCOME_MESSAGE],
    input := "",
    storage := { s.storage with
      currentSessionId := some ("session_" ++ Nat.repr now),
      messages := some [DEFAULT_WELCOME_MESSAGE] } }

/-- The snapshot object serialized by `exportChatData()` (the surrounding DOM
download machinery carries this payload unchanged). -/
structure ExportData where
  messages : List Message
  repositories : List Repository
  sessionId : String
  exportedAt : Nat
  version : String
deriving DecidableEq, Repr

/-- `exportChatData()` — captures the current `messages`, `repositories` and
`sessionId` together with an export timestamp and the format version. -/
def exportChatData (now : Nat) (s : ChatState) : ExportData :=
  { messages := s.messages, repositories := s.repositories,
    sessionId := s.sessionId, exportedAt := now, version := "1.0" }

/-- A parsed import file: each field is `none` when the corresponding JSON key
is absent or null. -/
structure ImportedFile where
  messages : Option (List Message) := none
  repositories : Option (List Repository) := none
  sessionId : Option String := none
  exportedAt : Option Nat := none
  version : Option String := none
deriving DecidableEq, Repr

/-- Reading back the JSON file produced by `exportChatData` yields every key
present (JSON round-trips the snapshot unchanged). -/
def exportedFile (d : ExportData) : ImportedFile :=
  { messages := some d.messages, repositories := some d.repositories,
    sessionId := some d.sessionId, exportedAt := some d.exportedAt,
    version := some d.version }

/-- `importChatData(file)` — validates `importData.messages &&
importData.repositories` (present array values are truthy in JS, even when
empty) and replaces the two states; otherwise rejects with
`'Invalid chat data format'` leaving the state unmodified. -/
def importChatData (importData : ImportedFile) (s : ChatState) :
    Except String ChatState :=
  match importData.messages, importData.repositories with
  | some msgs, some repos =>
    .ok { s with messages := msgs, repositories := repos }
  | _, _ => .error "Invalid chat data format"

/-- Result of the mention-resolution step of `App.handleSendMessage`. -/
structure ResolvedSend where
  contentToSend : String
  repoOverride : Option String
  resolvedRepos : List String
deriving DecidableEq, Repr

/-- The Mention Resolver of `App.handleSendMessage`: collects the repositories
referenced by `#`/`@` tags (case-insensitive substring match against registry
names, first entry wins, de-duplicated in first-seen order), strips the tag
tokens from the outgoing content and keeps the first match as a fallback
override.  The result feeds
`sendMessage(contentToSend, repoOverride, resolvedRepos, input)`. -/
def handleSendMessageResolve (input : String) (repositories : List Repository) :
    ResolvedSend :=
  let allTags := scanTags input
  if allTags.length > 0 then
    let resolvedRepos := allTags.foldl
      (fun acc candidate =>
        match repositories.find?
            (fun r => containsSub (lowerStr r.name) (lowerStr candidate)) with
        | some matchRepo =>
          if acc.contains matchRepo.name then acc else acc ++ [matchRepo.name]
        | none => acc) []
    let contentToSend := cleanTagContent input
    let repoOverride :=
      if resolvedRepos.length > 0 then resolvedRepos.head? else none
    { contentToSend := contentToSend, repoOverride := repoOverride,
      resolvedRepos := resolvedRepos }
  else
    { contentToSend := input, repoOverride := none, resolvedRepos := [] }

/-! ### Claim-support definitions -/

/-- Abstract decimal digit list of a natural number, most significant digit
first (the specification of what `Nat.toDigits 10` computes). -/
def decDigits (n : Nat) : List Char :=
  if _ : n < 10 then [Nat.digitChar n]
  else decDigits (n / 10) ++ [Nat.digitChar (n % 10)]
decreasing_by exact Nat.div_lt_self (by omega) (by omega)

/-- Numeric value of a decimal digit character. -/
def digitVal (c : Char) : Nat := c.toNat - 48

/-- Value of a most-significant-first decimal digit list. -/
def valDec (l : List Char) : Nat :=
  l.foldl (fun a c => a * 10 + digitVal c) 0

/-- A fresh mount with no persisted data: the `useState` initializers produce
the default welcome log, empty input and registry, no active repository and a
generated `session_${Date.now()}` id. -/
def initialChatState (sessionStart : Nat) : ChatState :=
  { messages := [DEFAULT_WELCOME_MESSAGE], input := "", isLoading := false,
    isSaving := false, lastSaved := none, repositories := [],
    activeRepoName := none,
    sessionId := "session_" ++ Nat.repr sessionStart, storage := {} }

/-- A state with a request in flight (the busy flag set). -/
def busyChatState : ChatState :=
  { initialChatState 0 with isLoading := true }

/-- A registered GitHub repository used in concrete scenarios. -/
def myAppRepo : Repository :=
  { id := "100", name := "my-app", type := some "github", analyzedAt := 100,
    url := some "https://github.com/acme/my-app" }

/-- A registered uploaded repository used in concrete scenarios. -/
def apiServiceRepo : Repository :=
  { id := "101", name := "api-service", type := some "upload", analyzedAt := 101 }

/-- The registry `["my-app", "api-service"]` of the Mention Resolver
scenario. -/
def c6Registry : List Repository := [myAppRepo, apiServiceRepo]

/-- A state whose registry holds `my-app` and whose active pointer names
it. -/
def activeMyAppState : ChatState :=
  { initialChatState 0 with
    repositories := [myAppRepo]
    activeRepoName := some "my-app" }

/-- The active-repository invariant: a non-null pointer names some registry
entry. -/
def activeRepoConsistent (s : ChatState) : Bool :=
  match s.activeRepoName with
  | none => true
  | some n => s.repositories.any fun r => r.name == n

/-- A sequence of `addMessage` appends, each with its `Date.now()` reading. -/
def applyAppends (ps : List (Message × Nat)) (s : ChatState) : ChatState :=
  ps.foldl (fun st p => addMessage p.1 p.2 st) s

/-- A draft user message as handed to `addMessage` (id and timestamp are
assigned by `addMessage` itself). -/
def draftUserMsg (c : String) : Message :=
  { id := "", type := "user", content := c, timestamp := 0 }

/-- A state whose Message Log is empty. -/
def emptyLogState : ChatState :=
  { initialChatState 0 with messages := [] }

/-- Concrete messages for the `replaceThinking` scenario. -/
def thinkingMsgA : Message :=
  { id := "t1", type := "assistant", content := "Let me analyze your request...",
    timestamp := 10, isThinking := true }

def plainMsgA : Message :=
  { id := "a1", type := "assistant", content := "hello", timestamp := 11 }

def finalMsgA : Message :=
  { id := "f1", type := "assistant", content := "done", timestamp := 12 }

/-- A legacy-format analysis response (`repository_info` present with no
`name` property). -/
def legacyInfoResponse : AnalysisResponse :=
  { repository_info := some {} }

/-- A modern-format successful analysis response. -/
def successResponse : AnalysisResponse :=
  { success := some true, message := some "Repository analyzed successfully" }

/-- Number of error messages in a log. -/
def errorCount (log : List Message) : Nat :=
  (log.filter fun m => m.isError).length

/-- No thinking placeholder is present in the log. -/
def noThinking (log : List Message) : Prop :=
  ∀ m ∈ log, m.isThinking = false

/-- The log ends with a terminal assistant error message. -/
def terminalError (log : List Message) : Prop :=
  ∃ m, log.getLast? = some m ∧ m.isError = true ∧ m.isThinking = false ∧
    m.type = "assistant"

/-- The error-handling contract of a failed orchestrator operation: exactly
one new error message, appended terminally, no thinking placeholder left, busy
flag released. -/
def failureContract (s post : ChatState) : Prop :=
  errorCount post.messages = errorCount s.messages + 1 ∧
  noThinking post.messages ∧ terminalError post.messages ∧
  post.isLoading = false

/-! ### Theorems

First the arithmetic groundwork: `Nat.repr` (the id generator
`Date.now().toString()`) is injective, so distinct clock readings yield
distinct message/session ids. -/

theorem toDigitsCore_eq_decDigits (fuel : Nat) :
    ∀ (n : Nat) (ds : List Char), n < fuel →
      Nat.toDigitsCore 10 fuel n ds = decDigits n ++ ds := by
  induction fuel with
  | zero => intro n ds h; omega
  | succ fuel ih =>
    intro n ds h
    by_cases h10 : n / 10 = 0
    · have hn : n < 10 := by omega
      simp only [Nat.toDigitsCore, h10, if_true]
      rw [decDigits]
      simp [hn, Nat.mod_eq_of_lt hn]
    · have hn : ¬ n < 10 := by
        intro hlt
        exact h10 (Nat.div_eq_of_lt hlt)
      have hdiv : n / 10 < n := Nat.div_lt_self (by omega) (by omega)
      simp only [Nat.toDigitsCore, h10, if_false]
      rw [ih (n / 10) _ (by omega)]
      have hstep : decDigits n = decDigits (n / 10) ++ [Nat.digitChar (n % 10)] := by
        rw [decDigits]
        simp [hn]
      rw [hstep, List.append_assoc]
      rfl

theorem toDigits_eq_decDigits (n : Nat) : Nat.toDigits 10 n = decDigits n := by
  unfold Nat.toDigits
  rw [toDigitsCore_eq_decDigits (n + 1) n [] (by omega), List.append_nil]

theorem digitVal_digitChar (d : Nat) (h : d < 10) :
    digitVal (Nat.digitChar d) = d := by
  interval_cases d <;> rfl

theorem valDec_append_digit (l : List Char) (c : Char) :
    valDec (l ++ [c]) = valDec l * 10 + digitVal c := by
  simp [valDec, List.foldl_append]

theorem valDec_decDigits (n : Nat) : valDec (decDigits n) = n := by
  induction n using Nat.strong_induction_on with
  | _ n ih =>
    by_cases h : n < 10
    · rw [decDigits]
      simp only [h, dite_true]
      simp [valDec, digitVal_digitChar n h]
    · rw [decDigits]
      simp only [h, dite_false]
      rw [valDec_append_digit]
      rw [ih (n / 10) (Nat.div_lt_self (by omega) (by omega))]
      rw [digitVal_digitChar (n % 10) (Nat.mod_lt _ (by omega))]
      omega

theorem nat_repr_inj {m n : Nat} (h : Nat.repr m = Nat.repr n) : m = n := by
  have hd : decDigits m = decDigits n := by
    have h1 : (Nat.toDigits 10 m).asString = (Nat.toDigits 10 n).asString := h
    rw [toDigits_eq_decDigits, toDigits_eq_decDigits] at h1
    simpa [List.asString] using congrArg String.data h1
  have := valDec_decDigits m
  rw [hd, valDec_decDigits n] at this
  omega

/-- Claim C10: for every input string whose trimmed form is empty,
`sendMessage` returns immediately — no message appended, no backend call
issued (the outcome is independent of the backend), and the message log,
repository registry, active-repository pointer, busy flag and persisted
storage are all unchanged (the entire state is returned as is). -/
theorem claim_C10 (content : String) (repoOverride : Option String)
    (repoOverrides : Option (List String)) (originalContent : Option String)
    (backend : ApiResult AnalysisResponse) (t0 tUser tThink tEnd tFinal : Nat)
    (s : ChatState) (h : jsTrim content = "") :
    sendMessage content repoOverride repoOverrides originalContent backend
      t0 tUser tThink tEnd tFinal s = s := by
  unfold sendMessage
  rw [if_pos (Or.inl h)]

theorem claim_C10_witness :
    jsTrim "   " = "" ∧
      sendMessage "   " none none none (.err "network") 0 1 2 3 4
        (initialChatState 5) = initialChatState 5 :=
  ⟨by decide,
    claim_C10 "   " none none none (.err "network") 0 1 2 3 4
      (initialChatState 5) (by decide)⟩

set_option maxRecDepth 4000 in
/-- Claim C1 as stated is false: only `sendMessage` consults the busy flag.
With the busy flag set, `analyzeRepository` still appends its user message and
its error reply, changing the message log. -/
theorem claim_C1_counterexample :
    (analyzeRepository "https://github.com/acme/my-app" (.err "network")
        0 1 2 3 4 5 busyChatState).messages ≠ busyChatState.messages := by
  decide

/-- Claim C1 amended: only `sendMessage` rejects invocations while the busy
flag is set — such a call is a silent no-op that leaves the message log, the
repository registry, the active-repository pointer and all other state
unchanged, with no queuing and no cancellation; the remaining operations
(`analyzeRepository`, `analyzeFile`, `suggestFeature`, `switchToRepository`)
perform no busy check and proceed even while a request is in flight. -/
theorem claim_C1 (content : String) (repoOverride : Option String)
    (repoOverrides : Option (List String)) (originalContent : Option String)
    (backend : ApiResult AnalysisResponse) (t0 tUser tThink tEnd tFinal : Nat)
    (s : ChatState) (h : s.isLoading = true) :
    sendMessage content repoOverride repoOverrides originalContent backend
      t0 tUser tThink tEnd tFinal s = s := by
  unfold sendMessage
  rw [if_pos (Or.inr h)]

theorem claim_C1_witness :
    busyChatState.isLoading = true ∧
      sendMessage "hello" none none none (.ok {}) 0 1 2 3 4 busyChatState =
        busyChatState :=
  ⟨by decide,
    claim_C1 "hello" none none none (.ok {}) 0 1 2 3 4 busyChatState (by decide)⟩

/-- Claim C3 as stated is false at a log whose single thinking message is not
the last entry: `replaceThinking` filters the thinking message out and appends
the final message at the end, so on `[thinking, other]` it produces
`[other, final]`, not the positional replacement `[final, other]`. -/
theorem claim_C3_counterexample :
    replaceThinking [thinkingMsgA, plainMsgA] finalMsgA = [plainMsgA, finalMsgA] ∧
      replaceThinking [thinkingMsgA, plainMsgA] finalMsgA ≠ [finalMsgA, plainMsgA] := by
  decide

/-- Claim C3 amended: `replaceThinking` removes every thinking message and
appends the final message, as a single atomic functional update (no
intermediate log is observable).  Whenever the single thinking message is the
last entry — which is how every orchestrator operation uses it — the result
coincides with the claimed in-place replacement: all other messages keep their
positions and order, and the final message takes the thinking message's
place. -/
theorem claim_C3 (pre : List Message) (t finalMessage : Message)
    (ht : t.isThinking = true) (hpre : ∀ m ∈ pre, m.isThinking = false) :
    replaceThinking (pre ++ [t]) finalMessage = pre ++ [finalMessage] := by
  unfold replaceThinking
  rw [List.filter_append]
  have h1 : pre.filter (fun m => !m.isThinking) = pre :=
    List.filter_eq_self.mpr (by intro a ha; simp [hpre a ha])
  have h2 : [t].filter (fun m => !m.isThinking) = [] := by simp [ht]
  rw [h1, h2, List.append_nil]

theorem claim_C3_witness :
    (thinkingMsgA.isThinking = true ∧ ∀ m ∈ [plainMsgA], m.isThinking = false) ∧
      replaceThinking ([plainMsgA] ++ [thinkingMsgA]) finalMsgA =
        [plainMsgA] ++ [finalMsgA] :=
  ⟨⟨by decide, by decide⟩,
    claim_C3 [plainMsgA] thinkingMsgA finalMsgA (by decide) (by decide)⟩

/-- Claim C8: `exportChatData()` followed by `importChatData()` on the file it
produced succeeds (both required keys are present) and restores the `messages`
and `repositories` captured at export time, whatever the state at import
time. -/
theorem claim_C8 (now : Nat) (s target : ChatState) :
    ∃ restored,
      importChatData (exportedFile (exportChatData now s)) target = .ok restored ∧
      restored.messages = s.messages ∧ restored.repositories = s.repositories :=
  ⟨_, rfl, rfl, rfl⟩

/-- Claim C9: the code violates the active-pointer invariant.
`clearChatHistory` empties the registry and removes the persisted
`active_repo_name` key but never calls `setActiveRepoName(null)`, so from a
consistent state it leaves the in-memory pointer naming a repository that is
no longer registered. -/
theorem claim_C9 :
    activeRepoConsistent activeMyAppState = true ∧
      (clearChatHistory activeMyAppState).repositories = [] ∧
      (clearChatHistory activeMyAppState).activeRepoName = some "my-app" ∧
      activeRepoConsistent (clearChatHistory activeMyAppState) = false := by
  decide

set_option maxRecDepth 8000 in
/-- Claim C6: with registry names `["my-app", "api-service"]` (in that order),
the Mention Resolver turns the input `"fix bug in #my-app please"` into the
cleaned outgoing content `"fix bug in please"` with matched repository list
`["my-app"]` (and `"my-app"` as the fallback override). -/
theorem claim_C6 :
    handleSendMessageResolve "fix bug in #my-app please" c6Registry =
      { contentToSend := "fix bug in please", repoOverride := some "my-app",
        resolvedRepos := ["my-app"] } := by
  decide

/-- Claim C7 as stated is false: the fresh session id is
`session_${Date.now()}`, so two `newChat()` calls within the same millisecond
generate and persist the same id rather than two distinct ones. -/
theorem claim_C7_counterexample :
    (newChat 5 (initialChatState 0)).storage.currentSessionId = some "session_5" ∧
      (newChat 5 (newChat 5 (initialChatState 0))).storage.currentSessionId =
        some "session_5" := by
  decide

/-- Claim C7 amended: after each of two successive `newChat()` calls the
Message Log is exactly the default welcome message and the Repository Registry
is unchanged; each call generates and persists one fresh
`session_${Date.now()}` id, and the two ids are distinct provided the two
calls observe distinct `Date.now()` readings (they coincide when both calls
fall in the same millisecond). -/
theorem claim_C7 (t1 t2 : Nat) (s : ChatState) (h : t1 ≠ t2) :
    (newChat t1 s).messages = [DEFAULT_WELCOME_MESSAGE] ∧
    (newChat t2 (newChat t1 s)).messages = [DEFAULT_WELCOME_MESSAGE] ∧
    (newChat t1 s).storage.currentSessionId = some ("session_" ++ Nat.repr t1) ∧
    (newChat t2 (newChat t1 s)).storage.currentSessionId =
      some ("session_" ++ Nat.repr t2) ∧
    ("session_" ++ Nat.repr t1) ≠ ("session_" ++ Nat.repr t2) ∧
    (newChat t1 s).repositories = s.repositories ∧
    (newChat t2 (newChat t1 s)).repositories = s.repositories := by
  refine ⟨rfl, rfl, rfl, rfl, ?_, rfl, rfl⟩
  intro hEq
  apply h
  apply nat_repr_inj
  have hd := congrArg String.data hEq
  simp only [String.data_append] at hd
  have := List.append_cancel_left hd
  exact String.ext this

theorem claim_C7_witness :
    (5 : Nat) ≠ 7 ∧
      ((newChat 5 (initialChatState 0)).messages = [DEFAULT_WELCOME_MESSAGE] ∧
       (newChat 7 (newChat 5 (initialChatState 0))).messages = [DEFAULT_WELCOME_MESSAGE] ∧
       (newChat 5 (initialChatState 0)).storage.currentSessionId =
         some ("session_" ++ Nat.repr 5) ∧
       (newChat 7 (newChat 5 (initialChatState 0))).storage.currentSessionId =
         some ("session_" ++ Nat.repr 7) ∧
       ("session_" ++ Nat.repr 5) ≠ ("session_" ++ Nat.repr 7) ∧
       (newChat 5 (initialChatState 0)).repositories = (initialChatState 0).repositories ∧
       (newChat 7 (newChat 5 (initialChatState 0))).repositories =
         (initialChatState 0).repositories) :=
  ⟨by decide, claim_C7 5 7 (initialChatState 0) (by decide)⟩

theorem applyAppends_messages (ps : List (Message × Nat)) :
    ∀ s : ChatState, (applyAppends ps s).messages =
      s.messages ++ ps.map fun p => { p.1 with id := Nat.repr p.2, timestamp := p.2 } := by
  induction ps with
  | nil => intro s; simp [applyAppends]
  | cons p ps ih =>
    intro s
    show (applyAppends ps (addMessage p.1 p.2 s)).messages = _
    rw [ih (addMessage p.1 p.2 s)]
    simp [addMessage]

/-- Claim C4 as stated is false: `addMessage` assigns
`Date.now().toString()` as the id, so two appends within the same millisecond
(here both at reading 5, as happens for the back-to-back user/thinking
appends) receive the same id. -/
theorem claim_C4_counterexample :
    ((applyAppends [(draftUserMsg "a", 5), (draftUserMsg "b", 5)]
        (initialChatState 0)).messages.map Message.id) = ["1", "5", "5"] ∧
      ¬ (((applyAppends [(draftUserMsg "a", 5), (draftUserMsg "b", 5)]
        (initialChatState 0)).messages.map Message.id).Pairwise (· ≠ ·)) := by
  decide

/-- Claim C4 amended: any sequence of appends on an empty Message Log yields
exactly the appended messages in insertion order (each stamped with its
`Date.now()` reading as id and timestamp), and all ids are pairwise distinct
provided the appends observe pairwise distinct `Date.now()` readings (ids
repeat when two appends share a millisecond). -/
theorem claim_C4 (ps : List (Message × Nat)) (s : ChatState)
    (hs : s.messages = [])
    (ht : (ps.map Prod.snd).Pairwise (· ≠ ·)) :
    (applyAppends ps s).messages =
      (ps.map fun p => { p.1 with id := Nat.repr p.2, timestamp := p.2 }) ∧
    ((applyAppends ps s).messages.map Message.id).Pairwise (· ≠ ·) := by
  have h := applyAppends_messages ps s
  rw [hs, List.nil_append] at h
  refine ⟨h, ?_⟩
  rw [h, List.map_map]
  have hmap : (Message.id ∘ fun p : Message × Nat =>
      { p.1 with id := Nat.repr p.2, timestamp := p.2 }) =
      (Nat.repr ∘ Prod.snd) := by
    funext p
    rfl
  rw [hmap, ← List.map_map]
  exact List.Pairwise.map Nat.repr (fun a b hab hr => hab (nat_repr_inj hr)) ht

theorem claim_C4_witness :
    (emptyLogState.messages = [] ∧
      (([(draftUserMsg "a", 5), (draftUserMsg "b", 7)].map Prod.snd).Pairwise (· ≠ ·))) ∧
      ((applyAppends [(draftUserMsg "a", 5), (draftUserMsg "b", 7)]
          emptyLogState).messages =
        ([(draftUserMsg "a", 5), (draftUserMsg "b", 7)].map fun p =>
          { p.1 with id := Nat.repr p.2, timestamp := p.2 }) ∧
       ((applyAppends [(draftUserMsg "a", 5), (draftUserMsg "b", 7)]
          emptyLogState).messages.map Message.id).Pairwise (· ≠ ·)) :=
  ⟨⟨by decide, by decide⟩,
    claim_C4 [(draftUserMsg "a", 5), (draftUserMsg "b", 7)] emptyLogState
      (by decide) (by decide)⟩

theorem stripLit_self_append (lit rest : List Char) :
    stripLit lit (lit ++ rest) = some rest := by
  induction lit with
  | nil => rfl
  | cons a as ih => simp [stripLit, ih]

theorem removeGithubHost_cons_strip (c : Char) (cs rest : List Char)
    (h : stripLit githubHostHttps (c :: cs) = some rest) :
    removeGithubHost (c :: cs) = rest := by
  unfold removeGithubHost
  rw [h]

theorem removeGithubHost_https (rest : List Char) :
    removeGithubHost (githubHostHttps ++ rest) = rest := by
  have hshape : githubHostHttps ++ rest = 'h' :: ("ttps://github.com/".data ++ rest) := rfl
  rw [hshape]
  apply removeGithubHost_cons_strip
  rw [← hshape]
  exact stripLit_self_append githubHostHttps rest

theorem splitSlash_no_sep (l : List Char) (h : ∀ c ∈ l, c ≠ '/') :
    splitSlash l = [l] := by
  induction l with
  | nil => rfl
  | cons c cs ih =>
    have hc : c ≠ '/' := h c (by simp)
    have ih' := ih fun x hx => h x (by simp [hx])
    simp only [splitSlash, if_neg hc, ih']

theorem splitSlash_sep (a b : List Char) (ha : ∀ c ∈ a, c ≠ '/') :
    splitSlash (a ++ '/' :: b) = a :: splitSlash b := by
  induction a with
  | nil => simp [splitSlash]
  | cons c cs ih =>
    have hc : c ≠ '/' := ha c (by simp)
    have ih' := ih fun x hx => ha x (by simp [hx])
    simp only [List.cons_append, splitSlash, if_neg hc, List.append_eq, ih']

theorem extractRepoName_github (owner repo : String)
    (ho : ∀ c ∈ owner.data, c ≠ '/') (hr : ∀ c ∈ repo.data, c ≠ '/') :
    extractRepoName ("https://github.com/" ++ owner ++ "/" ++ repo) =
      owner ++ "-" ++ repo := by
  unfold extractRepoName
  have hdata : ("https://github.com/" ++ owner ++ "/" ++ repo).data =
      githubHostHttps ++ (owner.data ++ '/' :: repo.data) := by
    simp [githubHostHttps]
  rw [hdata, removeGithubHost_https,
    splitSlash_sep owner.data repo.data ho, splitSlash_no_sep repo.data hr]
  simp

set_option maxRecDepth 8000 in
/-- Claim C5 as stated is false for `analyzeFile`: the registry entry and the
active pointer use the full `file.name` — here `proj.zip` — while the
extension-stripped name `proj` is only sent to the backend as the `repo_name`
form field. -/
theorem claim_C5_counterexample :
    ((analyzeFile "proj.zip" (.ok legacyInfoResponse) 1 2 3 4
        (initialChatState 0)).repositories.map Repository.name) = ["proj.zip"] ∧
      (analyzeFile "proj.zip" (.ok legacyInfoResponse) 1 2 3 4
        (initialChatState 0)).activeRepoName = some "proj.zip" ∧
      stripFileExt "proj.zip" = "proj" ∧ ("proj.zip" : String) ≠ "proj" := by
  decide

theorem analyzeRepository_registers (repoUrl : String) (data : AnalysisResponse)
    (t0 tUser tThink tEnd tFinal tRepo : Nat) (s : ChatState)
    (hsuccess : data.success = some true)
    (hnew : ∀ r ∈ s.repositories, ¬ r.url = some repoUrl) :
    (analyzeRepository repoUrl (.ok data) t0 tUser tThink tEnd tFinal tRepo
        s).repositories.map Repository.name =
      s.repositories.map Repository.name ++ [extractRepoName repoUrl] ∧
    (analyzeRepository repoUrl (.ok data) t0 tUser tThink tEnd tFinal tRepo
        s).activeRepoName = some (extractRepoName repoUrl) := by
  have hfind : (s.repositories.find? fun repo => repo.url = some repoUrl) = none := by
    rw [List.find?_eq_none]
    intro x hx
    simp [hnew x hx]
  simp [analyzeRepository, addMessage, hsuccess, hfind]

theorem analyzeFile_registers (fileName : String) (data : AnalysisResponse)
    (info : RepositoryInfo) (tUser tThink tFinal tRepo : Nat) (s : ChatState)
    (hinfo : data.repository_info = some info)
    (hnew : ∀ r ∈ s.repositories, ¬ r.name = fileName) :
    (analyzeFile fileName (.ok data) tUser tThink tFinal tRepo
        s).repositories.map Repository.name =
      s.repositories.map Repository.name ++ [info.name.getD fileName] ∧
    (analyzeFile fileName (.ok data) tUser tThink tFinal tRepo
        s).activeRepoName = some fileName := by
  have hfind : (s.repositories.find? fun repo => repo.name = fileName) = none := by
    rw [List.find?_eq_none]
    intro x hx
    simp [hnew x hx]
  simp [analyzeFile, addMessage, hinfo, hfind]

/-- Claim C5 amended: whenever `analyzeRepository(url)` succeeds on a fresh
`https://github.com/owner/repo` URL, the registered and activated repository
is named `owner-repo` (derived from the URL's two path segments); whenever
`analyzeFile(file)` succeeds and registers, the active pointer is set to the
full uploaded filename, and the registry entry is likewise named the full
filename except that a `name` carried by the legacy `repository_info` payload
overrides it via the `...data.repository_info` spread — the extension-stripped
variant is used only for the `repo_name` form field sent to the backend, never
for registration. -/
theorem claim_C5 (owner repo fileName : String)
    (data dataF : AnalysisResponse) (info : RepositoryInfo)
    (t0 tUser tThink tEnd tFinal tRepo tUserF tThinkF tFinalF tRepoF : Nat)
    (s : ChatState)
    (ho : ∀ c ∈ owner.data, c ≠ '/') (hrp : ∀ c ∈ repo.data, c ≠ '/')
    (hsuccess : data.success = some true)
    (hnew : ∀ r ∈ s.repositories,
      ¬ r.url = some ("https://github.com/" ++ owner ++ "/" ++ repo))
    (hinfoF : dataF.repository_info = some info)
    (hnewF : ∀ r ∈ s.repositories, ¬ r.name = fileName) :
    ((analyzeRepository ("https://github.com/" ++ owner ++ "/" ++ repo)
        (.ok data) t0 tUser tThink tEnd tFinal tRepo
        s).repositories.map Repository.name =
      s.repositories.map Repository.name ++ [owner ++ "-" ++ repo] ∧
     (analyzeRepository ("https://github.com/" ++ owner ++ "/" ++ repo)
        (.ok data) t0 tUser tThink tEnd tFinal tRepo
        s).activeRepoName = some (owner ++ "-" ++ repo)) ∧
    ((analyzeFile fileName (.ok dataF) tUserF tThinkF tFinalF tRepoF
        s).repositories.map Repository.name =
      s.repositories.map Repository.name ++ [info.name.getD fileName] ∧
     (analyzeFile fileName (.ok dataF) tUserF tThinkF tFinalF tRepoF
        s).activeRepoName = some fileName) := by
  have hx := extractRepoName_github owner repo ho hrp
  have h1 := analyzeRepository_registers
    ("https://github.com/" ++ owner ++ "/" ++ repo) data
    t0 tUser tThink tEnd tFinal tRepo s hsuccess hnew
  rw [hx] at h1
  exact ⟨h1, analyzeFile_registers fileName dataF info tUserF tThinkF tFinalF
    tRepoF s hinfoF hnewF⟩

theorem claim_C5_witness :
    ((∀ c ∈ "facebook".data, c ≠ '/') ∧ (∀ c ∈ "react".data, c ≠ '/') ∧
     successResponse.success = some true ∧
     (∀ r ∈ (initialChatState 0).repositories,
       ¬ r.url = some ("https://github.com/" ++ "facebook" ++ "/" ++ "react")) ∧
     legacyInfoResponse.repository_info = some {} ∧
     (∀ r ∈ (initialChatState 0).repositories, ¬ r.name = "proj.zip")) ∧
    (((analyzeRepository ("https://github.com/" ++ "facebook" ++ "/" ++ "react")
        (.ok successResponse) 0 1 2 3 4 5
        (initialChatState 0)).repositories.map Repository.name =
      (initialChatState 0).repositories.map Repository.name ++
        ["facebook" ++ "-" ++ "react"] ∧
     (analyzeRepository ("https://github.com/" ++ "facebook" ++ "/" ++ "react")
        (.ok successResponse) 0 1 2 3 4 5
        (initialChatState 0)).activeRepoName =
          some ("facebook" ++ "-" ++ "react")) ∧
    ((analyzeFile "proj.zip" (.ok legacyInfoResponse) 1 2 3 4
        (initialChatState 0)).repositories.map Repository.name =
      (initialChatState 0).repositories.map Repository.name ++
        [(({} : RepositoryInfo).name.getD "proj.zip")] ∧
     (analyzeFile "proj.zip" (.ok legacyInfoResponse) 1 2 3 4
        (initialChatState 0)).activeRepoName = some "proj.zip")) :=
  ⟨⟨by decide, by decide, by decide, by decide, by decide, by decide⟩,
    claim_C5 "facebook" "react" "proj.zip" successResponse legacyInfoResponse {}
      0 1 2 3 4 5 1 2 3 4 (initialChatState 0)
      (by decide) (by decide) (by decide) (by decide) (by decide) (by decide)⟩

theorem filter_noThinking (l : List Message) (h : noThinking l) :
    l.filter (fun m => !m.isThinking) = l :=
  List.filter_eq_self.mpr fun a ha => by simp [h a ha]

theorem errorCount_append (a b : List Message) :
    errorCount (a ++ b) = errorCount a + errorCount b := by
  simp [errorCount, List.filter_append]

theorem sendMessage_err_contract (content : String) (repoOverride : Option String)
    (repoOverrides : Option (List String)) (originalContent : Option String)
    (e : String) (t0 tUser tThink tEnd tFinal : Nat) (s : ChatState)
    (hnt : noThinking s.messages) (hcontent : ¬ jsTrim content = "")
    (hbusy : s.isLoading = false)
    (hscope : ¬ truthyStr (jsOrStr repoOverride (jsOrStr s.activeRepoName
        ((s.repositories.getLast?).map Repository.name))) = none) :
    failureContract s (sendMessage content repoOverride repoOverrides
      originalContent (.err e) t0 tUser tThink tEnd tFinal s) := by
  obtain ⟨v, hv⟩ := Option.ne_none_iff_exists'.mp hscope
  unfold sendMessage
  rw [if_neg (by simp [hcontent, hbusy])]
  simp only [addMessage]
  simp only [hv]
  constructor
  · simp only [replaceThinking, List.filter_append, filter_noThinking s.messages hnt]
    simp [errorCount_append, errorCount]
  refine ⟨?_, ?_, rfl⟩
  · intro m hm
    simp only [replaceThinking, List.filter_append, filter_noThinking s.messages hnt] at hm
    simp at hm
    rcases hm with hm | hm | hm
    · exact hnt m hm
    · simp [hm]
    · simp [hm]
  · simp [terminalError, replaceThinking]

theorem analyzeRepository_err_contract (repoUrl e : String)
    (t0 tUser tThink tEnd tFinal tRepo : Nat) (s : ChatState)
    (hnt : noThinking s.messages) :
    failureContract s (analyzeRepository repoUrl (.err e)
      t0 tUser tThink tEnd tFinal tRepo s) := by
  unfold analyzeRepository
  simp only [addMessage]
  constructor
  · simp only [replaceThinking, List.filter_append, filter_noThinking s.messages hnt]
    simp [errorCount_append, errorCount]
  refine ⟨?_, ?_, rfl⟩
  · intro m hm
    simp only [replaceThinking, List.filter_append, filter_noThinking s.messages hnt] at hm
    simp at hm
    rcases hm with hm | hm | hm
    · exact hnt m hm
    · simp [hm]
    · simp [hm]
  · simp [terminalError, replaceThinking]

theorem analyzeFile_err_contract (fileName e : String)
    (tUser tThink tFinal tRepo : Nat) (s : ChatState)
    (hnt : noThinking s.messages) :
    failureContract s (analyzeFile fileName (.err e) tUser tThink tFinal tRepo s) := by
  unfold analyzeFile
  simp only [addMessage]
  constructor
  · simp only [replaceThinking, List.filter_append, filter_noThinking s.messages hnt]
    simp [errorCount_append, errorCount]
  refine ⟨?_, ?_, rfl⟩
  · intro m hm
    simp only [replaceThinking, List.filter_append, filter_noThinking s.messages hnt] at hm
    simp at hm
    rcases hm with hm | hm | hm
    · exact hnt m hm
    · simp [hm]
    · simp [hm]
  · simp [terminalError, replaceThinking]

theorem suggestFeature_err_contract (featureDescription : String)
    (repositoryContext : Option String) (e : String)
    (tUser tThink tFinal : Nat) (s : ChatState)
    (hnt : noThinking s.messages) :
    failureContract s (suggestFeature featureDescription repositoryContext
      (.err e) tUser tThink tFinal s) := by
  unfold suggestFeature
  simp only [addMessage]
  constructor
  · simp only [replaceThinking, List.filter_append, filter_noThinking s.messages hnt]
    simp [errorCount_append, errorCount]
  refine ⟨?_, ?_, rfl⟩
  · intro m hm
    simp only [replaceThinking, List.filter_append, filter_noThinking s.messages hnt] at hm
    simp at hm
    rcases hm with hm | hm | hm
    · exact hnt m hm
    · simp [hm]
    · simp [hm]
  · simp [terminalError, replaceThinking]

theorem switchToRepository_err_contract (repoName e : String)
    (tWelcome tNotice tError : Nat) (s : ChatState)
    (hnt : noThinking s.messages) :
    failureContract s (switchToRepository repoName (.err e)
      tWelcome tNotice tError s) := by
  unfold switchToRepository
  constructor
  · simp [errorCount_append, errorCount]
  refine ⟨?_, ?_, rfl⟩
  · intro m hm
    simp at hm
    rcases hm with hm | hm
    · exact hnt m hm
    · simp [hm]
  · simp [terminalError]

/-- Claim C2: a backend-call failure in any orchestrator operation
(`sendMessage`, `analyzeRepository`, `analyzeFile`, `suggestFeature`,
`switchToRepository`) is caught at the orchestrator boundary and converted
into exactly one terminal assistant message with `isError = true`; afterwards
no thinking placeholder remains in the log and the busy flag is false.  The
hypotheses state the claim's context: the log holds no stray placeholder when
the operation starts (true between operations), and — for `sendMessage`, the
only guarded path — the call actually reaches the backend (non-empty input,
not busy, and a truthy — non-null, non-empty — repository scope resolves;
otherwise no backend call is made and no failure can occur). -/
theorem claim_C2 (content url fileName featureDescription repoName : String)
    (repoOverride : Option String) (repoOverrides : Option (List String))
    (originalContent : Option String) (repositoryContext : Option String)
    (e1 e2 e3 e4 e5 : String)
    (t0 tUser tThink tEnd tFinal t0r tUserR tThinkR tEndR tFinalR tRepoR
      tUserF tThinkF tFinalF tRepoF tUserS tThinkS tFinalS tW tN tE : Nat)
    (s : ChatState)
    (hnt : noThinking s.messages)
    (hcontent : ¬ jsTrim content = "")
    (hbusy : s.isLoading = false)
    (hscope : ¬ truthyStr (jsOrStr repoOverride (jsOrStr s.activeRepoName
        ((s.repositories.getLast?).map Repository.name))) = none) :
    failureContract s (sendMessage content repoOverride repoOverrides
      originalContent (.err e1) t0 tUser tThink tEnd tFinal s) ∧
    failureContract s (analyzeRepository url (.err e2)
      t0r tUserR tThinkR tEndR tFinalR tRepoR s) ∧
    failureContract s (analyzeFile fileName (.err e3)
      tUserF tThinkF tFinalF tRepoF s) ∧
    failureContract s (suggestFeature featureDescription repositoryContext
      (.err e4) tUserS tThinkS tFinalS s) ∧
    failureContract s (switchToRepository repoName (.err e5) tW tN tE s) :=
  ⟨sendMessage_err_contract content repoOverride repoOverrides originalContent
      e1 t0 tUser tThink tEnd tFinal s hnt hcontent hbusy hscope,
   analyzeRepository_err_contract url e2 t0r tUserR tThinkR tEndR tFinalR tRepoR
      s hnt,
   analyzeFile_err_contract fileName e3 tUserF tThinkF tFinalF tRepoF s hnt,
   suggestFeature_err_contract featureDescription repositoryContext e4
      tUserS tThinkS tFinalS s hnt,
   switchToRepository_err_contract repoName e5 tW tN tE s hnt⟩

theorem claim_C2_witness :
    (noThinking activeMyAppState.messages ∧
     ¬ jsTrim "hi" = "" ∧
     activeMyAppState.isLoading = false ∧
     ¬ truthyStr (jsOrStr none (jsOrStr activeMyAppState.activeRepoName
        ((activeMyAppState.repositories.getLast?).map Repository.name))) = none) ∧
    (failureContract activeMyAppState (sendMessage "hi" none none none
        (.err "HTTP 500") 0 1 2 3 4 activeMyAppState) ∧
     failureContract activeMyAppState (analyzeRepository "https://github.com/a/b"
        (.err "HTTP 422") 0 1 2 3 4 5 activeMyAppState) ∧
     failureContract activeMyAppState (analyzeFile "proj.zip" (.err "HTTP 404")
        1 2 3 4 activeMyAppState) ∧
     failureContract activeMyAppState (suggestFeature "auth" none
        (.err "HTTP 500") 1 2 3 activeMyAppState) ∧
     failureContract activeMyAppState (switchToRepository "my-app"
        (.err "network") 1 2 3 activeMyAppState)) :=
  ⟨⟨by unfold noThinking; decide, by decide, by decide, by decide⟩,
    claim_C2 "hi" "https://github.com/a/b" "proj.zip" "auth" "my-app"
      none none none none "HTTP 500" "HTTP 422" "HTTP 404" "HTTP 500" "network"
      0 1 2 3 4 0 1 2 3 4 5 1 2 3 4 1 2 3 1 2 3 activeMyAppState
      (by unfold noThinking; decide) (by decide) (by decide) (by decide)⟩
